import Mathlib

/-!
Shallow embedding of `neverthrow` (src/src/neverthrow/result.py): a two-variant
algebraic result type `Result[T, E] = Ok[T] | Err[E]` with a combinator algebra
(`and_then`, `map`, `map_err`, `or_else`, `unwrap_or`, `unwrap_or_else`,
`inspect`, `inspect_err`, `__or__`), the constructor helper `pure`, and the
exception adapters `wrap` / `wrap_async`.

Two complementary models are developed:

* a structural model (`neverthrow.Result`) where each Python method body is
  transliterated as a pure Lean function over the tagged union, and
  caller-supplied callables are pure functions — used for the algebraic laws;
* an instrumented model where caller-supplied callables are state-passing
  functions `T → σ → β × σ` (the state σ stands for the ambient Python world:
  call counters, logs, anything an effectful callable could touch), so that
  "the callable is not invoked" is provable as "the state comes back unchanged
  for every callable and every starting state";
* an object-identity model (`neverthrow.Inst`, with a fresh-id allocation
  counter) reflecting that `Ok`/`Err` are plain Python classes with no
  `__eq__`, so `==` on instances is CPython's default reference identity, and
  that the no-op combinator branches `return self` rather than allocating.
-/

namespace neverthrow

/-- The tagged union `Result[T, E] = Ok[T] | Err[E]` from result.py:
`Ok` holds `self.value : T`, `Err` holds `self.error : E`. -/
inductive Result (T E : Type) where
  | Ok : T → Result T E
  | Err : E → Result T E
deriving DecidableEq, Repr

/-- Helper `pure(value)` from result.py: `return Ok(value)`. -/
def pure {T E : Type} (value : T) : Result T E := .Ok value

/-- Predicate `is_ok`: `Ok.is_ok` returns `True`, `Err.is_ok` returns `False`. -/
def Result.is_ok {T E : Type} : Result T E → Bool
  | .Ok _ => true
  | .Err _ => false

/-- Predicate `is_err`: `Ok.is_err` returns `False`, `Err.is_err` returns `True`. -/
def Result.is_err {T E : Type} : Result T E → Bool
  | .Ok _ => false
  | .Err _ => true

/-- Method `and_then`: `Ok.and_then` is `return func(self.value)`;
`Err.and_then` is `return self`. -/
def Result.and_then {T E NewT : Type}
    (r : Result T E) (func : T → Result NewT E) : Result NewT E :=
  match r with
  | .Ok v => func v
  | .Err e => .Err e

/-- Method `map`: `Ok.map` is `return Ok(func(self.value))`; `Err.map` is `return self`. -/
def Result.map {T E NewT : Type}
    (r : Result T E) (func : T → NewT) : Result NewT E :=
  match r with
  | .Ok v => .Ok (func v)
  | .Err e => .Err e

/-- Operator method `__or__`: `Ok.__or__` is `return self.map(func)`; `Err.__or__` is `return self`. -/
def Result.__or__ {T E NewT : Type}
    (r : Result T E) (func : T → NewT) : Result NewT E :=
  match r with
  | .Ok v => (Result.Ok v : Result T E).map func
  | .Err e => .Err e

/-- Method `map_err`: `Ok.map_err` is `return self`;
`Err.map_err` is `return Err(func(self.error))`. -/
def Result.map_err {T E NewE : Type}
    (r : Result T E) (func : E → NewE) : Result T NewE :=
  match r with
  | .Ok v => .Ok v
  | .Err e => .Err (func e)

/-- Method `or_else`: `Ok.or_else` is `return self`; `Err.or_else` is `return func(self.error)`. -/
def Result.or_else {T E : Type}
    (r : Result T E) (func : E → Result T E) : Result T E :=
  match r with
  | .Ok v => .Ok v
  | .Err e => func e

/-- Method `unwrap_or`: `Ok.unwrap_or` is `return self.value`;
`Err.unwrap_or` is `return default`. -/
def Result.unwrap_or {T E : Type} (r : Result T E) (default : T) : T :=
  match r with
  | .Ok v => v
  | .Err _ => default

/-- Method `unwrap_or_else`: `Ok.unwrap_or_else` is `return self.value`;
`Err.unwrap_or_else` is `return func(self.error)`. -/
def Result.unwrap_or_else {T E : Type} (r : Result T E) (func : E → T) : T :=
  match r with
  | .Ok v => v
  | .Err e => func e

/-- Method `inspect`: `Ok.inspect` is `_ = func(self.value); return self` — in the
structural model the discarded return makes the call invisible, so the
structural value is the identity; `Err.inspect` is `return self`.
(Invocation of `func` is tracked by the instrumented model below.) -/
def Result.inspect {T E : Type}
    (r : Result T E) (func : T → Unit) : Result T E :=
  match r with
  | .Ok v => let _ := func v; .Ok v
  | .Err e => .Err e

/-- Method `inspect_err`: `Ok.inspect_err` is `return self`;
`Err.inspect_err` is `_ = func(self.error); return self`. -/
def Result.inspect_err {T E : Type}
    (r : Result T E) (func : E → Unit) : Result T E :=
  match r with
  | .Ok v => .Ok v
  | .Err e => let _ := func e; .Err e

/-!
Instrumented model: caller-supplied callables are state-passing functions.
σ stands for everything a Python callable could observe or mutate (a call
counter in the short-circuit tests, a log, ...). Each method body is the same
transliteration as above, but where the Python code calls `func`, the state is
threaded through that call; where it does not, the state is untouched.
-/

/-- Instrumented `and_then`: `Ok.and_then` calls `func(self.value)` (state
threads through the call); `Err.and_then` is `return self` (no call, state
untouched). -/
def and_thenS {T E NewT σ : Type}
    (r : Result T E) (func : T → σ → Result NewT E × σ) (s : σ) :
    Result NewT E × σ :=
  match r with
  | .Ok v => func v s
  | .Err e => (.Err e, s)

/-- Instrumented `map`: `Ok.map` calls `func(self.value)` and wraps the result
in `Ok`; `Err.map` is `return self`. -/
def mapS {T E NewT σ : Type}
    (r : Result T E) (func : T → σ → NewT × σ) (s : σ) :
    Result NewT E × σ :=
  match r with
  | .Ok v => let (x, s1) := func v s; (.Ok x, s1)
  | .Err e => (.Err e, s)

/-- Instrumented `__or__`: `Ok.__or__` is `return self.map(func)`;
`Err.__or__` is `return self` (it does not even delegate to `map`). -/
def orS {T E NewT σ : Type}
    (r : Result T E) (func : T → σ → NewT × σ) (s : σ) :
    Result NewT E × σ :=
  match r with
  | .Ok v => mapS (Result.Ok v : Result T E) func s
  | .Err e => (.Err e, s)

/-- Instrumented `unwrap_or_else`: `Ok.unwrap_or_else` returns `self.value`
without calling `func`; `Err.unwrap_or_else` is `return func(self.error)`. -/
def unwrap_or_elseS {T E σ : Type}
    (r : Result T E) (func : E → σ → T × σ) (s : σ) : T × σ :=
  match r with
  | .Ok v => (v, s)
  | .Err e => func e s

/-- An `and_then` chain `r.and_then(f1).and_then(f2)...` in the instrumented
model: left fold of `and_thenS` over the list of chained callables. -/
def chainS {T E σ : Type}
    (rs : Result T E × σ) (funcs : List (T → σ → Result T E × σ)) :
    Result T E × σ :=
  funcs.foldl (fun acc f => and_thenS acc.1 f acc.2) rs

/-!
Exception adapters. A Python callable is modelled as `α → Except PyBaseExc β`:
it either returns a value or raises a `BaseException`. `isException` records
whether the raised object is an instance of `Exception` (every ordinary
computational error) or an interpreter-level signal outside the `Exception`
branch of the hierarchy (`SystemExit`, `KeyboardInterrupt`, ...), which a
`except Exception` clause does not catch.
-/

/-- A raised Python `BaseException` object: `isException` is true iff it is an
instance of `Exception` (the branch `except Exception` catches); `payload`
stands for the object's identity/content. -/
structure PyBaseExc where
  isException : Bool
  payload : Nat
deriving DecidableEq, Repr

/-- Adapter `wrap(func)` from result.py: the returned callable runs
`try: return Ok(func(*args)) except Exception as e: return Err(e)`.
A raise that is an `Exception` instance is caught and becomes `Err(e)` with
the exception object itself as payload; a non-`Exception` raise propagates. -/
def wrap {α β : Type} (func : α → Except PyBaseExc β) :
    α → Except PyBaseExc (Result β PyBaseExc) :=
  fun a =>
    match func a with
    | .ok x => .ok (.Ok x)
    | .error e => if e.isException then .ok (.Err e) else .error e

/-- Adapter `wrap_async(func)` from result.py: identical body up to `await` —
`try: return Ok(await func(*args)) except Exception as e: return Err(e)`.
In the shallow embedding the awaited completion is the callable's returned
outcome, so the adapter's catch-and-convert logic is the same as `wrap`. -/
def wrap_async {α β : Type} (func : α → Except PyBaseExc β) :
    α → Except PyBaseExc (Result β PyBaseExc) :=
  fun a =>
    match func a with
    | .ok x => .ok (.Ok x)
    | .error e => if e.isException then .ok (.Err e) else .error e

/-!
Forcible extraction. result.py defines no `unwrap`: the only way to extract
the success payload with no default and no handler is the `value` attribute.
`Ok.__init__` sets `self.value`; `Err` never defines a `value` attribute (its
only data attribute is `error`), and both classes are `@final` with no
`__getattr__`, so Python attribute lookup of `value` on an `Err` instance
deterministically raises `AttributeError`.
-/

/-- The single attribute-lookup failure Python signals for a missing
attribute. -/
inductive PyAttrError where
  | attributeError
deriving DecidableEq, Repr

/-- Attribute access `r.value` under Python attribute-lookup semantics:
on `Ok` it yields the stored `self.value`; on `Err` the attribute does not
exist and the access raises `AttributeError`. -/
def getattr_value {T E : Type} : Result T E → Except PyAttrError T
  | .Ok v => .ok v
  | .Err _ => .error .attributeError

/-!
Object-identity model. `Ok` and `Err` are plain Python classes that define no
`__eq__`, so `a == b` on instances falls back to CPython's default: it is true
iff `a` and `b` are the same object. An instance is modelled with an explicit
object id plus its tag-and-payload (`Sum.inl` for the Ok channel, `Sum.inr`
for the Err channel); constructing an instance draws a fresh id from a supply
counter, which always exceeds every previously allocated id.
-/

/-- A Python `Ok`/`Err` instance: object identity `id`, and the variant's
payload (`.inl value` for `Ok`, `.inr error` for `Err`). -/
structure Inst (T E : Type) where
  id : Nat
  data : T ⊕ E
deriving DecidableEq, Repr

/-- Constructor `Ok(value)`: allocate a fresh instance holding `self.value = value`. -/
def mkOk {T E : Type} (value : T) (n : Nat) : Inst T E × Nat :=
  (⟨n, .inl value⟩, n + 1)

/-- Constructor `Err(error)`: allocate a fresh instance holding `self.error = error`. -/
def mkErr {T E : Type} (error : E) (n : Nat) : Inst T E × Nat :=
  (⟨n, .inr error⟩, n + 1)

/-- Python `==` on `Ok`/`Err` instances: neither class defines `__eq__`, so
`object.__eq__` applies on both sides and `a == b` reduces to `a is b` —
identity of the objects, the payloads are never consulted. -/
def pyEq {T E : Type} (a b : Inst T E) : Bool :=
  a.id == b.id

/-- Method `map` on instances: `Ok.map` allocates `Ok(func(self.value))` (fresh id);
`Err.map` is `return self` (same object: same id, same payload, no
allocation). -/
def mapI {T E NewT : Type}
    (r : Inst T E) (func : T → NewT) (n : Nat) : Inst NewT E × Nat :=
  match r.data with
  | .inl v => (⟨n, .inl (func v)⟩, n + 1)
  | .inr e => (⟨r.id, .inr e⟩, n)

/-- Method `map_err` on instances: `Ok.map_err` is `return self`;
`Err.map_err` allocates `Err(func(self.error))` (fresh id). -/
def map_errI {T E NewE : Type}
    (r : Inst T E) (func : E → NewE) (n : Nat) : Inst T NewE × Nat :=
  match r.data with
  | .inl v => (⟨r.id, .inl v⟩, n)
  | .inr e => (⟨n, .inr (func e)⟩, n + 1)

/-- Method `inspect` on instances: both variants `return self` (the `Ok` branch also
calls `func(self.value)` for its side effect and discards the result). -/
def inspectI {T E : Type}
    (r : Inst T E) (func : T → Unit) (n : Nat) : Inst T E × Nat :=
  match r.data with
  | .inl v => let _ := func v; (⟨r.id, .inl v⟩, n)
  | .inr e => (⟨r.id, .inr e⟩, n)

/-- Method `inspect_err` on instances: both variants `return self` (the `Err` branch
also calls `func(self.error)` for its side effect). -/
def inspect_errI {T E : Type}
    (r : Inst T E) (func : E → Unit) (n : Nat) : Inst T E × Nat :=
  match r.data with
  | .inl v => (⟨r.id, .inl v⟩, n)
  | .inr e => let _ := func e; (⟨r.id, .inr e⟩, n)

/-- Method `and_then` on instances: `Ok.and_then` returns `func(self.value)` — the
instance `func` produces, whatever it is; `Err.and_then` is `return self`. -/
def and_thenI {T E NewT : Type}
    (r : Inst T E) (func : T → Nat → Inst NewT E × Nat) (n : Nat) :
    Inst NewT E × Nat :=
  match r.data with
  | .inl v => func v n
  | .inr e => (⟨r.id, .inr e⟩, n)

/-- Method `or_else` on instances: `Ok.or_else` is `return self`;
`Err.or_else` returns `func(self.error)`. -/
def or_elseI {T E : Type}
    (r : Inst T E) (func : E → Nat → Inst T E × Nat) (n : Nat) :
    Inst T E × Nat :=
  match r.data with
  | .inl v => (⟨r.id, .inl v⟩, n)
  | .inr e => func e n

/-!
Theorems settling the claims.
-/

/-- C1: once a Failure appears in an `and_then` chain no subsequently chained
function is invoked and the original error payload is propagated unchanged:
for every error `e` and every (arbitrarily effectful) function `func`,
`Err(e).and_then(func)` returns the same `Err e` with the world state `s`
untouched — so `func` was not invoked — and an entire chain of further
`and_then` calls after the failure leaves both the error and the state
unchanged. -/
theorem C1_err_and_then_short_circuits {T E NewT σ : Type}
    (e : E) (func : T → σ → Result NewT E × σ) (s : σ)
    (funcs : List (T → σ → Result T E × σ)) :
    and_thenS (Result.Err e : Result T E) func s = (Result.Err e, s) ∧
    chainS ((Result.Err e : Result T E), s) funcs = (Result.Err e, s) := by
  refine ⟨rfl, ?_⟩
  induction funcs with
  | nil => rfl
  | cons f fs ih => simpa [chainS, and_thenS] using ih

/-- C3: left identity — `pure(a).and_then(func)` equals `func(a)`, both for a
pure callable in the structural model and for an arbitrarily effectful
callable in the instrumented model. -/
theorem C3_left_identity {T E NewT σ : Type} (a : T)
    (func : T → Result NewT E) (funcS : T → σ → Result NewT E × σ) (s : σ) :
    (pure a : Result T E).and_then func = func a ∧
    and_thenS (pure a : Result T E) funcS s = funcS a s :=
  ⟨rfl, rfl⟩

/-- C4: right identity — `m.and_then(pure)` equals `m` for every Result `m`,
whether Success or Failure. -/
theorem C4_right_identity {T E : Type} (m : Result T E) :
    m.and_then pure = m := by
  cases m <;> rfl

/-- C5: associativity — `m.and_then(f).and_then(g)` equals
`m.and_then(fun x => f(x).and_then(g))` for every Result `m` and all
Result-returning `f`, `g`; the universal quantification covers chains that
succeed throughout, fail at the first step (`f` returns `Err`), and fail at
the second step (`g` returns `Err`). -/
theorem C5_associativity {T E A B : Type} (m : Result T E)
    (f : T → Result A E) (g : A → Result B E) :
    (m.and_then f).and_then g = m.and_then (fun x => (f x).and_then g) := by
  cases m <;> rfl

/-- C6: `wrap(func)` (and identically `wrap_async(func)`) applied to an
argument returns `Ok x` when `func` returns normally with `x`; when `func`
raises, an exception of any `Exception` type is caught generically and
returned as `Err` carrying the exception object itself, while a
non-`Exception` control-flow signal (`isException = false`, e.g. a request to
terminate the process) propagates uncaught. The three cases are exhaustive. -/
theorem C6_wrap_catch_semantics {α β : Type}
    (func : α → Except PyBaseExc β) (a : α) :
    (∃ x, func a = .ok x ∧
      wrap func a = .ok (.Ok x) ∧ wrap_async func a = .ok (.Ok x)) ∨
    (∃ e, func a = .error e ∧ e.isException = true ∧
      wrap func a = .ok (.Err e) ∧ wrap_async func a = .ok (.Err e)) ∨
    (∃ e, func a = .error e ∧ e.isException = false ∧
      wrap func a = .error e ∧ wrap_async func a = .error e) := by
  cases h : func a with
  | ok x =>
    exact .inl ⟨x, rfl, by simp [wrap, h], by simp [wrap_async, h]⟩
  | error e =>
    cases he : e.isException
    · exact .inr (.inr ⟨e, rfl, he, by simp [wrap, h, he], by simp [wrap_async, h, he]⟩)
    · exact .inr (.inl ⟨e, rfl, he, by simp [wrap, h, he], by simp [wrap_async, h, he]⟩)

/-- C7: forcible extraction of the success payload with no default and no
handler is the `value` attribute access; on every Failure it deterministically
raises `AttributeError` (Python's programmer-error signal for a missing
attribute, defined and documented by the language: `Err` never defines
`value`), and on every Success it returns the stored value. All combinator
methods of the type are total functions in this development and so never
raise on the Result's own behalf — attribute extraction is the sole raising
operation. -/
theorem C7_forcible_extraction_raises_on_failure {T E : Type} (e : E) (v : T) :
    getattr_value (Result.Err e : Result T E) = .error .attributeError ∧
    getattr_value (Result.Ok v : Result T E) = .ok v :=
  ⟨rfl, rfl⟩

/-- C9: `unwrap_or` and `unwrap_or_else` are total on both variants and never
raise on the Result's own behalf: `Ok v` yields `v` for any default and for
any callable — which is not invoked (the world state comes back untouched for
every effectful callable) — and `Err e` yields the default, respectively
`func e`. -/
theorem C9_unwrap_or_total {T E σ : Type} (v : T) (e : E) (d : T)
    (func : E → T) (funcS : E → σ → T × σ) (s : σ) :
    (Result.Ok v : Result T E).unwrap_or d = v ∧
    (Result.Err e : Result T E).unwrap_or d = d ∧
    (Result.Ok v : Result T E).unwrap_or_else func = v ∧
    (Result.Err e : Result T E).unwrap_or_else func = func e ∧
    unwrap_or_elseS (Result.Ok v : Result T E) funcS s = (v, s) ∧
    unwrap_or_elseS (Result.Err e : Result T E) funcS s = funcS e s :=
  ⟨rfl, rfl, rfl, rfl, rfl, rfl⟩

/-- C10: the `|` operator is an alias for `map` on both variants — `r | func`
equals `r.map(func)` for every `r` and `func` (also in the instrumented
model); `Ok v | func` is `Ok (func v)` and `Err e | func` is the unchanged
`Err e` with `func` not invoked (state untouched for every effectful
callable). -/
theorem C10_or_operator_is_map {T E NewT σ : Type} (r : Result T E)
    (func : T → NewT) (v : T) (e : E) (funcS : T → σ → NewT × σ) (s : σ) :
    r.__or__ func = r.map func ∧
    (Result.Ok v : Result T E).__or__ func = Result.Ok (func v) ∧
    (Result.Err e : Result T E).__or__ func = Result.Err e ∧
    orS (Result.Err e : Result T E) funcS s = (Result.Err e, s) ∧
    orS r funcS s = mapS r funcS s := by
  refine ⟨?_, rfl, rfl, rfl, ?_⟩ <;> cases r <;> rfl

/-- C2 counterexample: evaluating `Ok(0) == Ok(0)` allocates two distinct
instances (object ids 0 and 1); the comparison is `false` even though the two
payloads are equal (`0 = 0`), refuting "Success(v1) == Success(v2) iff
v1 == v2". Neither class defines `__eq__`, so `==` never consults the
payload. -/
theorem C2_counterexample :
    pyEq ((mkOk 0 0 : Inst Nat Nat × Nat)).1
      ((mkOk 0 ((mkOk 0 0 : Inst Nat Nat × Nat)).2 : Inst Nat Nat × Nat)).1
      = false ∧
    (0 : Nat) = 0 := by
  decide

/-- C2 amended: equality of Result instances is reference identity, not
structural — `a == b` holds iff `a` and `b` are the same object, and two
instances produced by separate constructions are never equal, whatever their
payloads: a fresh `Ok(v1)` differs from the next fresh `Ok(v2)` even when
`v1 = v2`, likewise for `Err`, and a fresh `Ok` is never equal to a fresh
`Err` (being distinct objects). -/
theorem C2_equality_is_reference_identity {T E : Type} (a b : Inst T E)
    (v1 v2 : T) (e1 e2 : E) (n : Nat) :
    (pyEq a b = true ↔ a.id = b.id) ∧
    pyEq ((mkOk v1 n : Inst T E × Nat)).1
      ((mkOk v2 ((mkOk v1 n : Inst T E × Nat)).2 : Inst T E × Nat)).1 = false ∧
    pyEq ((mkOk v1 n : Inst T E × Nat)).1
      ((mkErr e2 ((mkOk v1 n : Inst T E × Nat)).2 : Inst T E × Nat)).1 = false ∧
    pyEq ((mkErr e1 n : Inst T E × Nat)).1
      ((mkErr e2 ((mkErr e1 n : Inst T E × Nat)).2 : Inst T E × Nat)).1 = false := by
  refine ⟨?_, ?_, ?_, ?_⟩ <;> simp [pyEq, mkOk, mkErr]

/-- C8 counterexample: with the allocation counter at 1 (the sole live
instance being `Ok(42)` with object id 0), `Ok(42).map_err(f)` returns the
original instance itself — same object id 0, counter still 1, nothing
allocated — refuting "the combinator produces a new instance". -/
theorem C8_counterexample :
    map_errI (⟨0, Sum.inl 42⟩ : Inst Nat Nat) (fun e => e + 1) 1 =
      ((⟨0, Sum.inl 42⟩ : Inst Nat Nat), 1) := by
  rfl

/-- C8 amended: no combinator ever modifies the original instance's tag or
payload (the model has no mutation primitive, and every equation below
propagates the original payload unchanged), but a combinator does not always
produce a new instance: the no-op branches (`Err.and_then`, `Err.map`,
`Ok.map_err`, `Ok.or_else`, and both branches of `inspect`/`inspect_err`)
return the original instance itself (`return self` — same object id, no
allocation), only the transforming branches `Ok.map` and `Err.map_err`
allocate a fresh instance (object id `n`, the supply counter, which exceeds
every live id), and `Ok.and_then`/`Err.or_else` return whatever instance the
supplied function produces. -/
theorem C8_combinators_return_self_or_fresh {T E NewT NewE : Type}
    (r : Inst T E) (f : T → NewT) (g : E → NewE) (h : T → Unit) (k : E → Unit)
    (fI : T → Nat → Inst NewT E × Nat) (gI : E → Nat → Inst T E × Nat)
    (n : Nat) :
    ((∃ v, r.data = .inl v ∧ mapI r f n = (⟨n, .inl (f v)⟩, n + 1)) ∨
     (∃ e, r.data = .inr e ∧ mapI r f n = (⟨r.id, .inr e⟩, n))) ∧
    ((∃ v, r.data = .inl v ∧ map_errI r g n = (⟨r.id, .inl v⟩, n)) ∨
     (∃ e, r.data = .inr e ∧ map_errI r g n = (⟨n, .inr (g e)⟩, n + 1))) ∧
    inspectI r h n = (r, n) ∧
    inspect_errI r k n = (r, n) ∧
    ((∃ v, r.data = .inl v ∧ and_thenI r fI n = fI v n) ∨
     (∃ e, r.data = .inr e ∧ and_thenI r fI n = (⟨r.id, .inr e⟩, n))) ∧
    ((∃ v, r.data = .inl v ∧ or_elseI r gI n = (r, n)) ∨
     (∃ e, r.data = .inr e ∧ or_elseI r gI n = gI e n)) := by
  rcases r with ⟨i, v | e⟩ <;>
    simp [mapI, map_errI, inspectI, inspect_errI, and_thenI, or_elseI]

end neverthrow
